import Mathlib

/-!
# GeoJSON importer (app.js): shallow embedding and verification

This file embeds the GeoJSON-ingestion module of `src/app.js` in Lean:
the geometry converter `convertGeoJSONGeometry`, the style selector
`getSymbolForGeometry`, the popup formatter `createPopupTemplate`, the
bounds accumulator `updateBounds` (with its attached `expand` operation),
and the pure data part of the upload orchestration `loadGeoJSON`
(graphics list and bounding box; DOM, layer registration and
notifications are outside the embedded data path).

JavaScript numbers are modelled by `JVal`: a rational (`num`), the two
infinities produced by `Math.min()` / `Math.max()` on empty argument
lists, `nan`, and `undef` for variables the code leaves unassigned
(`Number(undefined)` is `NaN`, which `toNumber` reflects). All
arithmetic exercised by the theorems below is exact in binary floating
point (comparisons, min/max, and products with a zero factor), so the
rational model is faithful on those paths.
-/

/-- A JavaScript numeric value as it flows through `updateBounds` and
`expand`: a finite number, `Infinity`, `-Infinity`, `NaN`, or
`undefined` (a declared-but-unassigned variable). -/
inductive JVal where
  | num (q : ℚ)
  | posInf
  | negInf
  | nan
  | undef
deriving DecidableEq, Repr

/-- JavaScript `ToNumber` on the values above: `undefined` coerces to
`NaN`; everything else is already a number. -/
def JVal.toNumber : JVal → JVal
  | .undef => .nan
  | v => v

/-- `Math.min(a, b)`: arguments are coerced with `ToNumber`; any `NaN`
is absorbing; otherwise the smaller value, with `-Infinity` least and
`Infinity` greatest. -/
def jsMin (a b : JVal) : JVal :=
  match a.toNumber, b.toNumber with
  | .nan, _ => .nan
  | _, .nan => .nan
  | .undef, _ => .nan
  | _, .undef => .nan
  | .negInf, _ => .negInf
  | _, .negInf => .negInf
  | .posInf, v => v
  | v, .posInf => v
  | .num x, .num y => .num (min x y)

/-- `Math.max(a, b)` under the same coercion rules as `jsMin`. -/
def jsMax (a b : JVal) : JVal :=
  match a.toNumber, b.toNumber with
  | .nan, _ => .nan
  | _, .nan => .nan
  | .undef, _ => .nan
  | _, .undef => .nan
  | .posInf, _ => .posInf
  | _, .posInf => .posInf
  | .negInf, v => v
  | v, .negInf => v
  | .num x, .num y => .num (max x y)

/-- `Math.min(...l)` over a list of finite numbers: `Infinity` when the
list is empty, else the running minimum. -/
def jsMinSpread (l : List ℚ) : JVal :=
  l.foldl (fun acc q => jsMin acc (.num q)) .posInf

/-- `Math.max(...l)` over a list of finite numbers: `-Infinity` when the
list is empty, else the running maximum. -/
def jsMaxSpread (l : List ℚ) : JVal :=
  l.foldl (fun acc q => jsMax acc (.num q)) .negInf

/-- JavaScript unary negation on numbers. -/
def jsNeg : JVal → JVal
  | .num q => .num (-q)
  | .posInf => .negInf
  | .negInf => .posInf
  | _ => .nan

/-- JavaScript `+` on numbers: `NaN` propagates, `Infinity + -Infinity`
is `NaN`, an infinity otherwise dominates. -/
def jsAdd (a b : JVal) : JVal :=
  match a.toNumber, b.toNumber with
  | .nan, _ => .nan
  | _, .nan => .nan
  | .undef, _ => .nan
  | _, .undef => .nan
  | .posInf, .negInf => .nan
  | .negInf, .posInf => .nan
  | .posInf, _ => .posInf
  | _, .posInf => .posInf
  | .negInf, _ => .negInf
  | _, .negInf => .negInf
  | .num x, .num y => .num (x + y)

/-- JavaScript `-` on numbers, as `a + (-b)` (exact in IEEE semantics). -/
def jsSub (a b : JVal) : JVal := jsAdd a (jsNeg b)

/-- JavaScript `*` on numbers: `NaN` propagates, `0 * Infinity` is
`NaN`, infinities follow the sign rules. -/
def jsMul (a b : JVal) : JVal :=
  match a.toNumber, b.toNumber with
  | .nan, _ => .nan
  | _, .nan => .nan
  | .undef, _ => .nan
  | _, .undef => .nan
  | .num x, .num y => .num (x * y)
  | .num x, .posInf => if x = 0 then .nan else if 0 < x then .posInf else .negInf
  | .num x, .negInf => if x = 0 then .nan else if 0 < x then .negInf else .posInf
  | .posInf, .num y => if y = 0 then .nan else if 0 < y then .posInf else .negInf
  | .negInf, .num y => if y = 0 then .nan else if 0 < y then .negInf else .posInf
  | .posInf, .posInf => .posInf
  | .posInf, .negInf => .negInf
  | .negInf, .posInf => .negInf
  | .negInf, .negInf => .posInf

/-- Division by the literal `2`, the only division in the source
(`expand`). Exact on finite values; infinities keep their sign. -/
def jsHalf : JVal → JVal
  | .num q => .num (q / 2)
  | .posInf => .posInf
  | .negInf => .negInf
  | _ => .nan

/-- A GeoJSON position, `[longitude, latitude]`. -/
abbrev Position := ℚ × ℚ

/-- A property value: a JSON scalar as it appears in `feature.properties`. -/
inductive Scalar where
  | str (s : String)
  | int (n : ℤ)
  | bool (b : Bool)
  | null
deriving DecidableEq, Repr

/-- JavaScript truthiness of a property value, as tested by `||` in
`properties.name || properties.title || 'Feature'`. -/
def Scalar.truthy : Scalar → Bool
  | .str s => s != ""
  | .int n => n != 0
  | .bool b => b
  | .null => false

/-- String interpolation of a property value (template literal
`${value}`). Integer-valued numbers print as their decimal digits. -/
def Scalar.render : Scalar → String
  | .str s => s
  | .int n => toString n
  | .bool b => if b then "true" else "false"
  | .null => "null"

/-- A parsed GeoJSON geometry. The first six constructors carry the
coordinate shapes of the six `type` tags that `convertGeoJSONGeometry`
switches on; `otherType` is a geometry whose `type` tag is any other
string (reaching the `default` branch of the switch). -/
inductive GeoJSONGeometry where
  | point (coordinates : Position)
  | lineString (coordinates : List Position)
  | polygon (coordinates : List (List Position))
  | multiPoint (coordinates : List Position)
  | multiLineString (coordinates : List (List Position))
  | multiPolygon (coordinates : List (List (List Position)))
  | otherType (t : String)
deriving DecidableEq, Repr

/-- The `type` tag string of a GeoJSON geometry. -/
def GeoJSONGeometry.typeTag : GeoJSONGeometry → String
  | .point _ => "Point"
  | .lineString _ => "LineString"
  | .polygon _ => "Polygon"
  | .multiPoint _ => "MultiPoint"
  | .multiLineString _ => "MultiLineString"
  | .multiPolygon _ => "MultiPolygon"
  | .otherType t => t

/-- The six `type` tags handled by the switch in `convertGeoJSONGeometry`. -/
def supportedGeometryTypes : List String :=
  ["Point", "LineString", "Polygon", "MultiPoint", "MultiLineString", "MultiPolygon"]

/-- Whether a geometry is one of the six supported kinds. -/
def GeoJSONGeometry.isSupported : GeoJSONGeometry → Bool
  | .otherType _ => false
  | _ => true

/-- An ArcGIS geometry as built by `convertGeoJSONGeometry`: the tagged
union over `point` / `polyline` / `polygon` / `multipoint`. -/
inductive ConvertedGeometry where
  | point (longitude latitude : ℚ)
  | polyline (paths : List (List Position))
  | polygon (rings : List (List Position))
  | multipoint (points : List Position)
deriving DecidableEq, Repr

/-- `convertGeoJSONGeometry(geojsonGeom)`: the switch on
`geojsonGeom.type`. `Point` reads `coordinates[0]` / `coordinates[1]`;
`LineString` wraps its coordinates as a single path; `MultiPolygon`
flattens one level (`coordinates.flat()`); the `default` branch returns
`null`. -/
def convertGeoJSONGeometry : GeoJSONGeometry → Option ConvertedGeometry
  | .point c => some (.point c.1 c.2)
  | .lineString c => some (.polyline [c])
  | .polygon c => some (.polygon c)
  | .multiPoint c => some (.multipoint c)
  | .multiLineString c => some (.polyline c)
  | .multiPolygon c => some (.polygon c.flatten)
  | .otherType _ => none

/-- All positions contained in a GeoJSON geometry, in document order. -/
def GeoJSONGeometry.coordList : GeoJSONGeometry → List Position
  | .point c => [c]
  | .lineString c => c
  | .polygon c => c.flatten
  | .multiPoint c => c
  | .multiLineString c => c.flatten
  | .multiPolygon c => c.flatten.flatten
  | .otherType _ => []

/-- All positions contained in a converted geometry, in order. -/
def ConvertedGeometry.coordList : ConvertedGeometry → List Position
  | .point lon lat => [(lon, lat)]
  | .polyline paths => paths.flatten
  | .polygon rings => rings.flatten
  | .multipoint points => points

/-- The outline part of a marker or fill symbol. -/
structure OutlineSpec where
  color : List ℚ
  width : ℚ
deriving DecidableEq, Repr

/-- A symbol as built by `getSymbolForGeometry`. -/
inductive SymbolSpec where
  | simpleMarker (color : List ℚ) (size : ℚ) (outline : OutlineSpec)
  | simpleLine (color : List ℚ) (width : ℚ)
  | simpleFill (color : List ℚ) (outline : OutlineSpec)
deriving DecidableEq, Repr

/-- `getSymbolForGeometry(geomType)`: fixed style per GeoJSON `type`
tag; `null` for anything else. -/
def getSymbolForGeometry : String → Option SymbolSpec
  | "Point" | "MultiPoint" =>
      some (.simpleMarker [51, 51, 204, 7/10] 8 ⟨[255, 255, 255], 1⟩)
  | "LineString" | "MultiLineString" =>
      some (.simpleLine [51, 51, 204, 8/10] 2)
  | "Polygon" | "MultiPolygon" =>
      some (.simpleFill [51, 51, 204, 3/10] ⟨[51, 51, 204, 8/10], 2⟩)
  | _ => none

/-- A popup template. `title` keeps the raw property value the code
assigns (the string `'Feature'` in the fallback case). -/
structure PopupTemplate where
  title : Scalar
  content : String
deriving DecidableEq, Repr

/-- JavaScript `a || b` on an object-property read `a` (absent keys read
as `undefined`, which is falsy). -/
def jsOrScalar (a : Option Scalar) (b : Scalar) : Scalar :=
  match a with
  | some v => if v.truthy then v else b
  | none => b

/-- Reading `properties.k` from a properties object, modelled as an
association list in insertion order with unique keys. -/
def propLookup (props : List (String × Scalar)) (k : String) : Option Scalar :=
  props.lookup k

/-- `createPopupTemplate(properties)`: placeholder when `properties` is
absent or has no keys; otherwise the `name`/`title`/`'Feature'` fallback
chain for the title and the `<b>key:</b> value` lines joined with
`<br>` for the content (`Object.entries` iterates in insertion order). -/
def createPopupTemplate (properties : Option (List (String × Scalar))) : PopupTemplate :=
  match properties with
  | none => { title := .str "Feature", content := "No properties available" }
  | some props =>
    if props.length = 0 then
      { title := .str "Feature", content := "No properties available" }
    else
      { title := jsOrScalar (propLookup props "name")
          (jsOrScalar (propLookup props "title") (.str "Feature")),
        content := String.intercalate "<br>"
          (props.map (fun kv => "<b>" ++ kv.1 ++ ":</b> " ++ kv.2.render)) }

/-- A spatial reference, fixed to `{ wkid: 4326 }` by `updateBounds`. -/
structure SpatialReference where
  wkid : ℕ
deriving DecidableEq, Repr

/-- The bounding box built by `updateBounds`. The `expand` closure every
box carries is the same function literal for every box (it is installed
on the first box and copied by reference afterwards); it is modelled as
the method `JBox.expand` below. -/
structure JBox where
  xmin : JVal
  ymin : JVal
  xmax : JVal
  ymax : JVal
  spatialReference : SpatialReference
deriving DecidableEq, Repr

/-- `expand(factor)` from `updateBounds`: grow the box by
`(factor - 1) / 2` of its width and height on each side. -/
def JBox.expand (b : JBox) (factor : ℚ) : JBox :=
  let width := jsSub b.xmax b.xmin
  let height := jsSub b.ymax b.ymin
  let expandWidth := jsHalf (jsMul width (.num (factor - 1)))
  let expandHeight := jsHalf (jsMul height (.num (factor - 1)))
  { xmin := jsSub b.xmin expandWidth,
    ymin := jsSub b.ymin expandHeight,
    xmax := jsAdd b.xmax expandWidth,
    ymax := jsAdd b.ymax expandHeight,
    spatialReference := b.spatialReference }

/-- The `minX, minY, maxX, maxY` locals of `updateBounds` for one
geometry. The source tests `point`, `polyline` and `polygon` only: for a
`multipoint` geometry no branch assigns them, so all four stay
`undefined`. -/
def geometryMinMax (geometry : ConvertedGeometry) : JVal × JVal × JVal × JVal :=
  match geometry with
  | .point lon lat => (.num lon, .num lat, .num lon, .num lat)
  | .polyline paths =>
      let coords := paths.flatten
      (jsMinSpread (coords.map Prod.fst), jsMinSpread (coords.map Prod.snd),
       jsMaxSpread (coords.map Prod.fst), jsMaxSpread (coords.map Prod.snd))
  | .polygon rings =>
      let coords := rings.flatten
      (jsMinSpread (coords.map Prod.fst), jsMinSpread (coords.map Prod.snd),
       jsMaxSpread (coords.map Prod.fst), jsMaxSpread (coords.map Prod.snd))
  | .multipoint _ => (.undef, .undef, .undef, .undef)

/-- `updateBounds(bounds, geometry)`: pass `bounds` through when
`geometry` is null; create a fresh box with spatial reference
`{ wkid: 4326 }` when `bounds` is null; otherwise combine with
`Math.min` / `Math.max` componentwise, keeping the prior box's spatial
reference. -/
def updateBounds (bounds : Option JBox) (geometry : Option ConvertedGeometry) : Option JBox :=
  match geometry with
  | none => bounds
  | some g =>
    let m := geometryMinMax g
    match bounds with
    | none =>
        some { xmin := m.1, ymin := m.2.1, xmax := m.2.2.1, ymax := m.2.2.2,
               spatialReference := ⟨4326⟩ }
    | some b =>
        some { xmin := jsMin b.xmin m.1, ymin := jsMin b.ymin m.2.1,
               xmax := jsMax b.xmax m.2.2.1, ymax := jsMax b.ymax m.2.2.2,
               spatialReference := b.spatialReference }

/-- A GeoJSON feature: a geometry plus optional properties. -/
structure Feature where
  geometry : GeoJSONGeometry
  properties : Option (List (String × Scalar))
deriving DecidableEq, Repr

/-- A graphic record as built by `createGraphicFromGeoJSON`. -/
structure Graphic where
  geometry : ConvertedGeometry
  symbol : Option SymbolSpec
  attributes : List (String × Scalar)
  popupTemplate : PopupTemplate
deriving DecidableEq, Repr

/-- `createGraphicFromGeoJSON(feature)`: `null` when the geometry does
not convert; otherwise the graphic with the converted geometry, the
symbol for the GeoJSON type tag, `feature.properties || {}` as
attributes, and the popup template. -/
def createGraphicFromGeoJSON (feature : Feature) : Option Graphic :=
  match convertGeoJSONGeometry feature.geometry with
  | none => none
  | some geometry =>
      some { geometry := geometry,
             symbol := getSymbolForGeometry feature.geometry.typeTag,
             attributes := feature.properties.getD [],
             popupTemplate := createPopupTemplate feature.properties }

/-- A parsed GeoJSON document by its top-level `type` tag:
`FeatureCollection`, `Feature`, or anything else. -/
inductive GeoJSONDoc where
  | featureCollection (features : List Feature)
  | feature (f : Feature)
  | otherDoc (t : String)
deriving DecidableEq, Repr

/-- One iteration of the feature loop in `loadGeoJSON`: push the graphic
and fold its geometry into the bounds, or leave the accumulator alone
when the feature's geometry did not convert. -/
def processFeature (acc : List Graphic × Option JBox) (f : Feature) :
    List Graphic × Option JBox :=
  match createGraphicFromGeoJSON f with
  | some graphic => (acc.1 ++ [graphic], updateBounds acc.2 (some graphic.geometry))
  | none => acc

/-- The data result of `loadGeoJSON(geojsonData, fileName)`: the
`graphics` array and the final `bounds`, starting from `[]` and `null`.
A `FeatureCollection` iterates `features`; a `Feature` is handled
singly; any other top-level type leaves both untouched. (Layer creation,
registration, zooming and notifications act on the renderer, not on
this data.) -/
def loadGeoJSON (geojsonData : GeoJSONDoc) : List Graphic × Option JBox :=
  match geojsonData with
  | .featureCollection features => features.foldl processFeature ([], none)
  | .feature f => processFeature ([], none) f
  | .otherDoc _ => ([], none)

/-- Folding `updateBounds` over a sequence of already-converted
geometries starting from no box, as the feature loop does. -/
def foldBounds (gs : List ConvertedGeometry) : Option JBox :=
  gs.foldl (fun bounds g => updateBounds bounds (some g)) none

/-- A box with finite bounds in the right order: the spec invariant
`xmin ≤ xmax ∧ ymin ≤ ymax`. -/
def validBox (b : JBox) : Prop :=
  ∃ x0 y0 x1 y1 : ℚ, b.xmin = .num x0 ∧ b.ymin = .num y0 ∧
    b.xmax = .num x1 ∧ b.ymax = .num y1 ∧ x0 ≤ x1 ∧ y0 ≤ y1

/-- A box contains a position when its bounds are finite numbers and the
position lies within them. -/
def boxContains (b : JBox) (p : Position) : Prop :=
  ∃ x0 y0 x1 y1 : ℚ, b.xmin = .num x0 ∧ b.ymin = .num y0 ∧
    b.xmax = .num x1 ∧ b.ymax = .num y1 ∧
    x0 ≤ p.1 ∧ p.1 ≤ x1 ∧ y0 ≤ p.2 ∧ p.2 ≤ y1

/-- Remove the `<b>` and `</b>` markup emitted by the popup formatter,
leaving the rendered text of a content line. -/
def stripBoldAux : List Char → List Char
  | [] => []
  | '<' :: 'b' :: '>' :: rest => stripBoldAux rest
  | '<' :: '/' :: 'b' :: '>' :: rest => stripBoldAux rest
  | c :: rest => c :: stripBoldAux rest

/-- `stripBoldAux` on a string. -/
def stripBold (s : String) : String := String.mk (stripBoldAux s.data)

/-! ## Helper lemmas -/

theorem foldl_processFeature_fst (fs : List Feature) (acc : List Graphic × Option JBox) :
    (fs.foldl processFeature acc).1 = acc.1 ++ fs.filterMap createGraphicFromGeoJSON := by
  induction fs generalizing acc with
  | nil => simp
  | cons f fs ih =>
    cases h : createGraphicFromGeoJSON f with
    | none => simp [List.foldl_cons, processFeature, h, ih]
    | some g => simp [List.foldl_cons, processFeature, h, ih]

theorem foldl_jsMin_num (l : List ℚ) (a : ℚ) :
    l.foldl (fun acc q => jsMin acc (.num q)) (.num a) = .num (l.foldl min a) := by
  induction l generalizing a with
  | nil => rfl
  | cons x xs ih => exact ih (min a x)

theorem foldl_jsMax_num (l : List ℚ) (a : ℚ) :
    l.foldl (fun acc q => jsMax acc (.num q)) (.num a) = .num (l.foldl max a) := by
  induction l generalizing a with
  | nil => rfl
  | cons x xs ih => exact ih (max a x)

theorem foldl_min_le_init (a : ℚ) (l : List ℚ) : l.foldl min a ≤ a := by
  induction l generalizing a with
  | nil => exact le_refl a
  | cons x xs ih => exact le_trans (ih (min a x)) (min_le_left a x)

theorem foldl_min_le_mem (a x : ℚ) (l : List ℚ) (hx : x ∈ l) : l.foldl min a ≤ x := by
  induction l generalizing a with
  | nil => cases hx
  | cons y ys ih =>
    rcases List.mem_cons.mp hx with h | h
    · rw [h]; exact le_trans (foldl_min_le_init (min a y) ys) (min_le_right a y)
    · exact ih (min a y) h

theorem init_le_foldl_max (a : ℚ) (l : List ℚ) : a ≤ l.foldl max a := by
  induction l generalizing a with
  | nil => exact le_refl a
  | cons x xs ih => exact le_trans (le_max_left a x) (ih (max a x))

theorem mem_le_foldl_max (a x : ℚ) (l : List ℚ) (hx : x ∈ l) : x ≤ l.foldl max a := by
  induction l generalizing a with
  | nil => cases hx
  | cons y ys ih =>
    rcases List.mem_cons.mp hx with h | h
    · rw [h]; exact le_trans (le_max_right a y) (init_le_foldl_max (max a y) ys)
    · exact ih (max a y) h

theorem jsMinSpread_spec (l : List ℚ) (h : l ≠ []) :
    ∃ m, jsMinSpread l = .num m ∧ ∀ x ∈ l, m ≤ x := by
  cases l with
  | nil => exact absurd rfl h
  | cons x xs =>
    refine ⟨xs.foldl min x, foldl_jsMin_num xs x, ?_⟩
    intro y hy
    rcases List.mem_cons.mp hy with h | h
    · rw [h]; exact foldl_min_le_init x xs
    · exact foldl_min_le_mem x y xs h

theorem jsMaxSpread_spec (l : List ℚ) (h : l ≠ []) :
    ∃ m, jsMaxSpread l = .num m ∧ ∀ x ∈ l, x ≤ m := by
  cases l with
  | nil => exact absurd rfl h
  | cons x xs =>
    refine ⟨xs.foldl max x, foldl_jsMax_num xs x, ?_⟩
    intro y hy
    rcases List.mem_cons.mp hy with h | h
    · rw [h]; exact init_le_foldl_max x xs
    · exact mem_le_foldl_max x y xs h

theorem jsMin_comm (a b : JVal) : jsMin a b = jsMin b a := by
  cases a <;> cases b <;> simp [jsMin, JVal.toNumber, min_comm]

theorem jsMax_comm (a b : JVal) : jsMax a b = jsMax b a := by
  cases a <;> cases b <;> simp [jsMax, JVal.toNumber, max_comm]

theorem jsMin_right_comm (a b c : JVal) : jsMin (jsMin a b) c = jsMin (jsMin a c) b := by
  cases a <;> cases b <;> cases c <;>
    simp [jsMin, JVal.toNumber, min_comm, min_assoc, min_left_comm]

theorem jsMax_right_comm (a b c : JVal) : jsMax (jsMax a b) c = jsMax (jsMax a c) b := by
  cases a <;> cases b <;> cases c <;>
    simp [jsMax, JVal.toNumber, max_comm, max_assoc, max_left_comm]

theorem updateBounds_swap (z : Option JBox) (g1 g2 : ConvertedGeometry) :
    updateBounds (updateBounds z (some g1)) (some g2)
      = updateBounds (updateBounds z (some g2)) (some g1) := by
  cases z with
  | none => simp [updateBounds, jsMin_comm, jsMax_comm]
  | some b => simp [updateBounds, jsMin_right_comm, jsMax_right_comm]

/-! ## Claim theorems -/

/-- C1: for every GeoJSON geometry of a supported type (Point,
LineString, Polygon, MultiPoint, MultiLineString, MultiPolygon),
`convertGeoJSONGeometry` returns a converted geometry whose total
coordinate count equals the input's and whose coordinate ordering is
preserved. -/
theorem convert_preserves_coordinates (g : GeoJSONGeometry)
    (h : g.isSupported = true) :
    ∃ cg, convertGeoJSONGeometry g = some cg ∧
      cg.coordList.length = g.coordList.length ∧
      cg.coordList = g.coordList := by
  cases g with
  | point c => exact ⟨_, rfl, rfl, rfl⟩
  | lineString c => exact ⟨_, rfl, by simp [ConvertedGeometry.coordList,
      GeoJSONGeometry.coordList], by simp [ConvertedGeometry.coordList,
      GeoJSONGeometry.coordList]⟩
  | polygon c => exact ⟨_, rfl, rfl, rfl⟩
  | multiPoint c => exact ⟨_, rfl, rfl, rfl⟩
  | multiLineString c => exact ⟨_, rfl, rfl, rfl⟩
  | multiPolygon c => exact ⟨_, rfl, rfl, rfl⟩
  | otherType t => simp [GeoJSONGeometry.isSupported] at h

/-- Witness for C1 at a concrete supported geometry. -/
theorem convert_preserves_coordinates_witness :
    (GeoJSONGeometry.lineString [(1, 2), (3, 4)]).isSupported = true ∧
    ∃ cg, convertGeoJSONGeometry (.lineString [(1, 2), (3, 4)]) = some cg ∧
      cg.coordList.length = (GeoJSONGeometry.lineString [(1, 2), (3, 4)]).coordList.length ∧
      cg.coordList = (GeoJSONGeometry.lineString [(1, 2), (3, 4)]).coordList :=
  ⟨rfl, convert_preserves_coordinates _ rfl⟩

/-- C7: for every MultiPolygon geometry, `convertGeoJSONGeometry`
returns a polygon whose ring list is the concatenation of all rings of
all constituent polygons, in order (the polygon-grouping boundary is
discarded by `coordinates.flat()`). -/
theorem multiPolygon_flattens_rings (polys : List (List (List Position))) :
    convertGeoJSONGeometry (.multiPolygon polys) = some (.polygon polys.flatten) := rfl

/-- C9: the importer dispatches on the top-level `type`: a
`FeatureCollection` processes every element of `features` (each
convertible feature contributing its graphic, in order), a `Feature` is
processed as a single feature, and any other top-level type produces no
graphics and no bounding box. -/
theorem loadGeoJSON_dispatch :
    (∀ fs, (loadGeoJSON (.featureCollection fs)).1
        = fs.filterMap createGraphicFromGeoJSON) ∧
    (∀ f, loadGeoJSON (.feature f) = loadGeoJSON (.featureCollection [f])) ∧
    (∀ t, loadGeoJSON (.otherDoc t) = ([], none)) := by
  refine ⟨?_, ?_, ?_⟩
  · intro fs
    simpa using foldl_processFeature_fst fs ([], none)
  · intro f; rfl
  · intro t; rfl

/-- C6: a geometry whose `type` is not one of the six supported tags
converts to `null`, its feature is excluded from the output graphics,
and the remaining features of the collection are still processed: the
result of the import is the same as if the feature were absent. -/
theorem unsupported_geometry_skipped (g : GeoJSONGeometry)
    (props : Option (List (String × Scalar))) (fs1 fs2 : List Feature)
    (h : g.typeTag ∉ supportedGeometryTypes) :
    convertGeoJSONGeometry g = none ∧
    loadGeoJSON (.featureCollection (fs1 ++ ⟨g, props⟩ :: fs2))
      = loadGeoJSON (.featureCollection (fs1 ++ fs2)) := by
  have hconv : convertGeoJSONGeometry g = none := by
    cases g with
    | otherType t => rfl
    | point c => simp [GeoJSONGeometry.typeTag, supportedGeometryTypes] at h
    | lineString c => simp [GeoJSONGeometry.typeTag, supportedGeometryTypes] at h
    | polygon c => simp [GeoJSONGeometry.typeTag, supportedGeometryTypes] at h
    | multiPoint c => simp [GeoJSONGeometry.typeTag, supportedGeometryTypes] at h
    | multiLineString c => simp [GeoJSONGeometry.typeTag, supportedGeometryTypes] at h
    | multiPolygon c => simp [GeoJSONGeometry.typeTag, supportedGeometryTypes] at h
  refine ⟨hconv, ?_⟩
  have hskip : ∀ acc, processFeature acc ⟨g, props⟩ = acc := by
    intro acc
    simp [processFeature, createGraphicFromGeoJSON, hconv]
  simp [loadGeoJSON, List.foldl_append, hskip]

/-- Witness for C6: a GeometryCollection-typed feature is skipped while
a following Point feature is still imported. -/
theorem unsupported_geometry_skipped_witness :
    (GeoJSONGeometry.otherType "GeometryCollection").typeTag ∉ supportedGeometryTypes ∧
    (convertGeoJSONGeometry (.otherType "GeometryCollection") = none ∧
     loadGeoJSON (.featureCollection
         ([] ++ ⟨.otherType "GeometryCollection", none⟩ :: [⟨.point (0, 0), none⟩]))
       = loadGeoJSON (.featureCollection ([] ++ [⟨.point (0, 0), none⟩]))) :=
  ⟨by decide, unsupported_geometry_skipped _ none [] [⟨.point (0, 0), none⟩] (by decide)⟩

/-- C10: when the properties map is non-empty, binds `name` to a falsy
scalar, and has no `title` key, `createPopupTemplate` falls back to the
title "Feature" rather than using the value of `name`: the fallback
chain tests truthiness, not key presence. -/
theorem falsy_name_default_title (props : List (String × Scalar)) (v : Scalar)
    (hne : props ≠ []) (hname : propLookup props "name" = some v)
    (hfalsy : v.truthy = false) (htitle : propLookup props "title" = none) :
    (createPopupTemplate (some props)).title = Scalar.str "Feature" ∧
    v ≠ Scalar.str "Feature" := by
  constructor
  · simp [createPopupTemplate, List.length_eq_zero, hne, hname, htitle,
      jsOrScalar, hfalsy]
  · intro heq
    rw [heq] at hfalsy
    simp [Scalar.truthy] at hfalsy

/-- Witness for C10 at `{name: null}`. -/
theorem falsy_name_default_title_witness :
    ([("name", Scalar.null)] : List (String × Scalar)) ≠ [] ∧
    propLookup [("name", Scalar.null)] "name" = some Scalar.null ∧
    Scalar.null.truthy = false ∧
    propLookup [("name", Scalar.null)] "title" = none ∧
    ((createPopupTemplate (some [("name", Scalar.null)])).title = Scalar.str "Feature" ∧
     Scalar.null ≠ Scalar.str "Feature") :=
  ⟨by decide, by decide, rfl, by decide,
   falsy_name_default_title _ _ (by decide) (by decide) rfl (by decide)⟩

/-- C5 counterexample: the claim as stated fails. For the non-empty map
`{name: ""}` the key `name` is present, yet the title is the fallback
"Feature", not the value of `name`: the chain tests truthiness, not
presence. -/
theorem popup_title_falsy_name_not_value :
    propLookup [("name", Scalar.str "")] "name" = some (Scalar.str "") ∧
    (createPopupTemplate (some [("name", Scalar.str "")])).title = Scalar.str "Feature" ∧
    (createPopupTemplate (some [("name", Scalar.str "")])).title ≠ Scalar.str "" := by
  refine ⟨by decide, by decide, by decide⟩

/-- C5 (amended): for every non-empty properties map the title is the
value of `name` when present and truthy, else the value of `title` when
present and truthy, else the literal "Feature"; the content is the
properties rendered as `<b>key:</b> value` lines joined with `<br>` in
insertion order; an absent or empty map yields the placeholder title
"Feature" and content "No properties available"; and on
`{name: "A", foo: "bar"}` the title is "A" and the content, with the
bold markup stripped, contains the text `foo: bar`. -/
theorem createPopupTemplate_spec (props : List (String × Scalar)) (hne : props ≠ []) :
    ((∃ v, propLookup props "name" = some v ∧ v.truthy = true ∧
        (createPopupTemplate (some props)).title = v) ∨
     ((∀ v, propLookup props "name" = some v → v.truthy = false) ∧
      ∃ w, propLookup props "title" = some w ∧ w.truthy = true ∧
        (createPopupTemplate (some props)).title = w) ∨
     ((∀ v, propLookup props "name" = some v → v.truthy = false) ∧
      (∀ w, propLookup props "title" = some w → w.truthy = false) ∧
      (createPopupTemplate (some props)).title = .str "Feature")) ∧
    (createPopupTemplate (some props)).content =
      String.intercalate "<br>"
        (props.map (fun kv => "<b>" ++ kv.1 ++ ":</b> " ++ kv.2.render)) ∧
    createPopupTemplate none =
      { title := .str "Feature", content := "No properties available" } ∧
    createPopupTemplate (some []) =
      { title := .str "Feature", content := "No properties available" } ∧
    (createPopupTemplate (some [("name", .str "A"), ("foo", .str "bar")])).title
      = .str "A" ∧
    (∃ pre post,
      stripBold (createPopupTemplate (some [("name", .str "A"), ("foo", .str "bar")])).content
        = pre ++ "foo: bar" ++ post) := by
  refine ⟨?_, ?_, rfl, rfl, by decide, ⟨"name: A<br>", "", by decide⟩⟩
  · cases hn : propLookup props "name" with
    | some v =>
      cases hv : v.truthy with
      | true =>
        exact Or.inl ⟨v, rfl, hv, by
          simp [createPopupTemplate, List.length_eq_zero, hne, hn, jsOrScalar, hv]⟩
      | false =>
        cases ht : propLookup props "title" with
        | some w =>
          cases hw : w.truthy with
          | true =>
            refine Or.inr (Or.inl ⟨?_, w, rfl, hw, ?_⟩)
            · intro u hu; cases hu; exact hv
            · simp [createPopupTemplate, List.length_eq_zero, hne, hn, ht,
                jsOrScalar, hv, hw]
          | false =>
            refine Or.inr (Or.inr ⟨?_, ?_, ?_⟩)
            · intro u hu; cases hu; exact hv
            · intro u hu; cases hu; exact hw
            · simp [createPopupTemplate, List.length_eq_zero, hne, hn, ht,
                jsOrScalar, hv, hw]
        | none =>
          refine Or.inr (Or.inr ⟨?_, ?_, ?_⟩)
          · intro u hu; cases hu; exact hv
          · intro u hu; exact Option.noConfusion hu
          · simp [createPopupTemplate, List.length_eq_zero, hne, hn, ht,
              jsOrScalar, hv]
    | none =>
      cases ht : propLookup props "title" with
      | some w =>
        cases hw : w.truthy with
        | true =>
          refine Or.inr (Or.inl ⟨?_, w, rfl, hw, ?_⟩)
          · intro u hu; exact Option.noConfusion hu
          · simp [createPopupTemplate, List.length_eq_zero, hne, hn, ht,
              jsOrScalar, hw]
        | false =>
          refine Or.inr (Or.inr ⟨?_, ?_, ?_⟩)
          · intro u hu; exact Option.noConfusion hu
          · intro u hu; cases hu; exact hw
          · simp [createPopupTemplate, List.length_eq_zero, hne, hn, ht,
              jsOrScalar, hw]
      | none =>
        refine Or.inr (Or.inr ⟨?_, ?_, ?_⟩)
        · intro u hu; exact Option.noConfusion hu
        · intro u hu; exact Option.noConfusion hu
        · simp [createPopupTemplate, List.length_eq_zero, hne, hn, ht, jsOrScalar]
  · simp [createPopupTemplate, List.length_eq_zero, hne]

/-- Witness for C5 (amended) at the map `{a: "b"}`. -/
theorem createPopupTemplate_spec_witness :
    ([("a", Scalar.str "b")] : List (String × Scalar)) ≠ [] ∧
    (createPopupTemplate (some [("a", Scalar.str "b")])).content =
      String.intercalate "<br>"
        ([("a", Scalar.str "b")].map (fun kv => "<b>" ++ kv.1 ++ ":</b> " ++ kv.2.render)) :=
  ⟨by decide, (createPopupTemplate_spec [("a", Scalar.str "b")] (by decide)).2.1⟩

/-- C4 counterexample: the bounding box of a single Point has
`xmin = xmax` and `ymin = ymax`, and `expand(1.2)` leaves it unchanged:
the resulting width is `0`, not strictly positive (the claimed padding
never appears on a degenerate box). -/
theorem expand_degenerate_not_positive :
    updateBounds none (some (ConvertedGeometry.point 0 0)) =
      some ⟨.num 0, .num 0, .num 0, .num 0, ⟨4326⟩⟩ ∧
    JBox.expand ⟨.num 0, .num 0, .num 0, .num 0, ⟨4326⟩⟩ (6/5) =
      ⟨.num 0, .num 0, .num 0, .num 0, ⟨4326⟩⟩ ∧
    ¬ (∃ w : ℚ, 0 < w ∧
        jsSub (JBox.expand ⟨.num 0, .num 0, .num 0, .num 0, ⟨4326⟩⟩ (6/5)).xmax
          (JBox.expand ⟨.num 0, .num 0, .num 0, .num 0, ⟨4326⟩⟩ (6/5)).xmin
          = .num w) := by
  have hexp : JBox.expand ⟨.num 0, .num 0, .num 0, .num 0, ⟨4326⟩⟩ (6/5) =
      ⟨.num 0, .num 0, .num 0, .num 0, ⟨4326⟩⟩ := by
    simp [JBox.expand, jsSub, jsAdd, jsNeg, jsMul, jsHalf, JVal.toNumber]
  refine ⟨rfl, hexp, ?_⟩
  rintro ⟨w, hw, heq⟩
  rw [hexp] at heq
  simp [jsSub, jsAdd, jsNeg, JVal.toNumber] at heq
  rw [← heq] at hw
  exact lt_irrefl 0 hw

/-- C4 (amended): on the degenerate box of a single Point, `expand(1.2)`
returns the box unchanged: its width and height are `0` (not strictly
positive), and its center is still that point. -/
theorem expand_degenerate_point_box (x y : ℚ) :
    ∃ b, updateBounds none (some (ConvertedGeometry.point x y)) = some b ∧
      b.expand (6/5) = b ∧
      jsSub b.xmax b.xmin = .num 0 ∧ jsSub b.ymax b.ymin = .num 0 ∧
      jsHalf (jsAdd b.xmin b.xmax) = .num x ∧ jsHalf (jsAdd b.ymin b.ymax) = .num y := by
  refine ⟨⟨.num x, .num y, .num x, .num y, ⟨4326⟩⟩, rfl, ?_, ?_, ?_, ?_, ?_⟩
  · simp [JBox.expand, jsSub, jsAdd, jsNeg, jsMul, jsHalf, JVal.toNumber]
  · simp [jsSub, jsAdd, jsNeg, JVal.toNumber]
  · simp [jsSub, jsAdd, jsNeg, JVal.toNumber]
  · simp [jsHalf, jsAdd, JVal.toNumber]
  · simp [jsHalf, jsAdd, JVal.toNumber]

/-- C3 (bounds invariant vs. the code): `updateBounds` has no branch for
`multipoint` geometries, so for a converted MultiPoint the four local
min/max variables stay `undefined` and the produced box has undefined
bounds: the invariant `xmin ≤ xmax ∧ ymin ≤ ymax` fails on the
one-element sequence below, although the geometry is produced by
`convertGeoJSONGeometry` and contains coordinates. -/
theorem multipoint_bounds_undefined :
    convertGeoJSONGeometry (.multiPoint [(0, 0), (1, 1)])
      = some (.multipoint [(0, 0), (1, 1)]) ∧
    foldBounds [.multipoint [(0, 0), (1, 1)]]
      = some ⟨.undef, .undef, .undef, .undef, ⟨4326⟩⟩ ∧
    ¬ validBox ⟨.undef, .undef, .undef, .undef, ⟨4326⟩⟩ := by
  refine ⟨rfl, rfl, ?_⟩
  rintro ⟨x0, y0, x1, y1, h, -, -, -, -, -⟩
  exact JVal.noConfusion h

/-- C8: folding `updateBounds` over a set of converted geometries from
no box is order-insensitive: any permutation of the sequence yields the
same final box (same `xmin`, `ymin`, `xmax`, `ymax` and spatial
reference), because the componentwise `Math.min` / `Math.max`
combination is commutative and associative (`NaN` is absorbing either
way). -/
theorem foldBounds_perm_invariant (gs1 gs2 : List ConvertedGeometry)
    (hp : gs1.Perm gs2) : foldBounds gs1 = foldBounds gs2 :=
  hp.foldl_eq' (fun x _ y _ z => updateBounds_swap z x y) none

/-- Witness for C8: swapping a point and a polygon gives the same box. -/
theorem foldBounds_perm_invariant_witness :
    ([ConvertedGeometry.point 0 0, ConvertedGeometry.polygon [[(1, 2)]]].Perm
      [ConvertedGeometry.polygon [[(1, 2)]], ConvertedGeometry.point 0 0]) ∧
    foldBounds [ConvertedGeometry.point 0 0, ConvertedGeometry.polygon [[(1, 2)]]]
      = foldBounds [ConvertedGeometry.polygon [[(1, 2)]], ConvertedGeometry.point 0 0] :=
  ⟨List.Perm.swap _ _ _,
   foldBounds_perm_invariant _ _ (List.Perm.swap _ _ _)⟩

theorem jsMin_num_num (a b : ℚ) : jsMin (.num a) (.num b) = .num (min a b) := rfl

theorem jsMax_num_num (a b : ℚ) : jsMax (.num a) (.num b) = .num (max a b) := rfl

theorem import_point_polygon_core (p : Position) (rings : List (List Position))
    (pprops qprops : Option (List (String × Scalar)))
    (hne : rings.flatten ≠ []) :
    ∃ b, (loadGeoJSON
        (.featureCollection [⟨.point p, pprops⟩, ⟨.polygon rings, qprops⟩])).2 = some b ∧
      boxContains b p ∧ ∀ q ∈ rings.flatten, boxContains b q := by
  obtain ⟨mx, hmx, hmxle⟩ :=
    jsMinSpread_spec (rings.flatten.map Prod.fst) (by simpa using hne)
  obtain ⟨my, hmy, hmyle⟩ :=
    jsMinSpread_spec (rings.flatten.map Prod.snd) (by simpa using hne)
  obtain ⟨Mx, hMx, hMxle⟩ :=
    jsMaxSpread_spec (rings.flatten.map Prod.fst) (by simpa using hne)
  obtain ⟨My, hMy, hMyle⟩ :=
    jsMaxSpread_spec (rings.flatten.map Prod.snd) (by simpa using hne)
  have hload : (loadGeoJSON
      (.featureCollection [⟨.point p, pprops⟩, ⟨.polygon rings, qprops⟩])).2
      = some ⟨jsMin (.num p.1) (jsMinSpread (rings.flatten.map Prod.fst)),
              jsMin (.num p.2) (jsMinSpread (rings.flatten.map Prod.snd)),
              jsMax (.num p.1) (jsMaxSpread (rings.flatten.map Prod.fst)),
              jsMax (.num p.2) (jsMaxSpread (rings.flatten.map Prod.snd)), ⟨4326⟩⟩ := rfl
  rw [hmx, hmy, hMx, hMy, jsMin_num_num, jsMin_num_num, jsMax_num_num, jsMax_num_num]
    at hload
  refine ⟨_, hload, ?_, ?_⟩
  · exact ⟨min p.1 mx, min p.2 my, max p.1 Mx, max p.2 My, rfl, rfl, rfl, rfl,
      min_le_left _ _, le_max_left _ _, min_le_left _ _, le_max_left _ _⟩
  · intro q hq
    exact ⟨min p.1 mx, min p.2 my, max p.1 Mx, max p.2 My, rfl, rfl, rfl, rfl,
      le_trans (min_le_right _ _) (hmxle q.1 (List.mem_map_of_mem Prod.fst hq)),
      le_trans (hMxle q.1 (List.mem_map_of_mem Prod.fst hq)) (le_max_right _ _),
      le_trans (min_le_right _ _) (hmyle q.2 (List.mem_map_of_mem Prod.snd hq)),
      le_trans (hMyle q.2 (List.mem_map_of_mem Prod.snd hq)) (le_max_right _ _)⟩

/-- C2: importing a FeatureCollection with exactly one Point feature and
one Polygon feature (in either order, the polygon carrying at least one
coordinate) yields exactly 2 graphic records, and the resulting bounding
box contains the point and every vertex of the polygon. -/
theorem import_point_polygon_covers (p : Position) (rings : List (List Position))
    (pprops qprops : Option (List (String × Scalar))) (fs : List Feature)
    (hne : rings.flatten ≠ [])
    (horder : fs = [⟨.point p, pprops⟩, ⟨.polygon rings, qprops⟩] ∨
              fs = [⟨.polygon rings, qprops⟩, ⟨.point p, pprops⟩]) :
    (loadGeoJSON (.featureCollection fs)).1.length = 2 ∧
    ∃ b, (loadGeoJSON (.featureCollection fs)).2 = some b ∧
      boxContains b p ∧ ∀ q ∈ rings.flatten, boxContains b q := by
  rcases horder with h | h <;> subst h
  · exact ⟨rfl, import_point_polygon_core p rings pprops qprops hne⟩
  · refine ⟨rfl, ?_⟩
    have hswap : (loadGeoJSON
        (.featureCollection [⟨.polygon rings, qprops⟩, ⟨.point p, pprops⟩])).2
        = (loadGeoJSON
        (.featureCollection [⟨.point p, pprops⟩, ⟨.polygon rings, qprops⟩])).2 := by
      show updateBounds (updateBounds none (some (ConvertedGeometry.polygon rings)))
          (some (ConvertedGeometry.point p.1 p.2))
        = updateBounds (updateBounds none (some (ConvertedGeometry.point p.1 p.2)))
          (some (ConvertedGeometry.polygon rings))
      exact updateBounds_swap none _ _
    obtain ⟨b, hb, h1, h2⟩ := import_point_polygon_core p rings pprops qprops hne
    exact ⟨b, hswap.trans hb, h1, h2⟩

/-- Witness for C2: a point at the origin and a one-ring polygon import
to 2 graphics and a covering box. -/
theorem import_point_polygon_covers_witness :
    (([[(1, 1), (2, 3)]] : List (List Position)).flatten ≠ []) ∧
    (loadGeoJSON (.featureCollection
        [⟨.point (0, 0), none⟩, ⟨.polygon [[(1, 1), (2, 3)]], none⟩])).1.length = 2 ∧
    ∃ b, (loadGeoJSON (.featureCollection
        [⟨.point (0, 0), none⟩, ⟨.polygon [[(1, 1), (2, 3)]], none⟩])).2 = some b ∧
      boxContains b (0, 0) ∧
      ∀ q ∈ ([[(1, 1), (2, 3)]] : List (List Position)).flatten, boxContains b q :=
  ⟨by decide,
   import_point_polygon_covers (0, 0) [[(1, 1), (2, 3)]] none none _ (by decide)
     (Or.inl rfl)⟩
